import Mathlib

/-!
Verification development for the pdf_sealer repository.

The page-overlay composition engine of `pdf_sealer.py` (and its Davia
variant `pdf_sealer_my_davia.py`) is shallowly embedded here.  A ReportLab
canvas is modelled as the list of drawing operations issued on it; external
library capabilities (ReportLab's `stringWidth` text metric and `HexColor`
parser) enter as abstract parameters collected in a `GraphicsEnv`, so every
theorem quantifies over all possible behaviours of those libraries.
Machine floats of the source become exact rationals.
-/

namespace PDFSealer

/-- An RGBA fill color, as ReportLab's `Color` value (channels in `[0,1]`). -/
structure FillColor where
  red : ℚ
  green : ℚ
  blue : ℚ
  alpha : ℚ
deriving DecidableEq, Repr

/-- ReportLab's predefined `black` (alpha defaults to 1). -/
def black : FillColor := ⟨0, 0, 0, 1⟩

/-- ReportLab's predefined `gray` (alpha defaults to 1). -/
def gray : FillColor := ⟨1/2, 1/2, 1/2, 1⟩

/-- One drawing operation issued on a ReportLab canvas.  `drawImage`
carries the payload string the drawn QR image was generated from. -/
inductive CanvasOp where
  | setFont (name : String) (size : ℚ)
  | setFillColor (c : FillColor)
  | drawImage (data : String) (x y w h : ℚ)
  | drawString (x y : ℚ) (s : String)
  | saveState
  | translate (x y : ℚ)
  | rotate (deg : Int)
  | restoreState
deriving DecidableEq, Repr

/-- The external graphics library capabilities the overlay code calls into:
`stringWidth text font size` is ReportLab's text-width metric, and
`hexColor s` is ReportLab's `HexColor` parse, `none` when parsing fails. -/
structure GraphicsEnv where
  stringWidth : String → String → ℚ → ℚ
  hexColor : String → Option FillColor

/-- `QRCodeGenerator.SIZE_PRESETS`: the size-class table (points). -/
def SIZE_PRESETS (s : String) : Option Int :=
  match s with
  | "small" => some 30
  | "medium" => some 50
  | "large" => some 80
  | _ => none

/-- A decimal digit's value. -/
def digitVal (c : Char) : Option Nat :=
  if '0' ≤ c ∧ c ≤ '9' then some (c.toNat - '0'.toNat) else none

/-- Accumulate the value of a run of decimal digits; `none` on a non-digit. -/
def digitsVal : List Char → Nat → Option Nat
  | [], acc => some acc
  | c :: rest, acc =>
    match digitVal c with
    | some d => digitsVal rest (acc * 10 + d)
    | none => none

/-- Value of a non-empty run of decimal digits. -/
def digitsValNE (cs : List Char) : Option Nat :=
  match cs with
  | [] => none
  | _ :: _ => digitsVal cs 0

/-- Characters Python's `int` strips around a numeric literal. -/
def isPySpace (c : Char) : Bool :=
  c = ' ' ∨ c = '\t' ∨ c = '\n' ∨ c = '\r'

/-- Modelled from the spec: the Python builtin `int(str)` used by
`QRCodeGenerator.__init__` for a custom size string — optional surrounding
whitespace, an optional sign, then a non-empty run of decimal digits;
anything else raises `ValueError`, modelled as `none`. -/
def pythonInt (s : String) : Option Int :=
  let cs := ((s.toList.dropWhile isPySpace).reverse.dropWhile isPySpace).reverse
  match cs with
  | '+' :: rest => (digitsValNE rest).map (fun n => (n : Int))
  | '-' :: rest => (digitsValNE rest).map (fun n => -(n : Int))
  | rest => (digitsValNE rest).map (fun n => (n : Int))

/-- `QRCodeGenerator` state after `__init__`: the resolved size in points
and the quiet-zone border, stored exactly as given. -/
structure QRCodeGenerator where
  size : Int
  border : Int
deriving DecidableEq, Repr

/-- `QRCodeGenerator.__init__` (pdf_sealer.py lines 33-48): a preset name
resolves through `SIZE_PRESETS`; otherwise the string is parsed as an
integer; otherwise a `ValueError` is raised. -/
def QRCodeGenerator.init (size : String) (border : Int) : Except String QRCodeGenerator :=
  match SIZE_PRESETS size with
  | some s => .ok ⟨s, border⟩
  | none =>
    match pythonInt size with
    | some n => .ok ⟨n, border⟩
    | none => .error ("Invalid size: " ++ size ++ ". Use small, medium, large, or a number.")

/-- The parameters `QRCodeGenerator.generate_qr_code` passes to the qrcode
library: fixed version 1, fixed box size 10, the stored border, the payload. -/
structure QRParams where
  version : Nat
  box_size : Nat
  border : Int
  data : String
deriving DecidableEq, Repr

/-- `QRCodeGenerator.generate_qr_code` (pdf_sealer.py lines 50-71): builds
the QR with `version=1, box_size=10, border=self.border` from `data`. -/
def QRCodeGenerator.generate_qr_code (g : QRCodeGenerator) (data : String) : QRParams :=
  ⟨1, 10, g.border, data⟩

/-- `WatermarkConfig` state after `__init__`. -/
structure WatermarkConfig where
  text : String
  font_size : Int
  opacity : ℚ
  angle : Int
  spacing_x : ℚ
  spacing_y : ℚ
  color : String
deriving DecidableEq, Repr

/-- `WatermarkConfig.__init__` (pdf_sealer.py lines 88-109): every numeric
field is clamped with `max lo (min hi v)`; the color string is stored as-is. -/
def WatermarkConfig.init (text : String) (font_size : Int) (opacity : ℚ)
    (angle : Int) (spacing_x : ℚ) (spacing_y : ℚ) (color : String) : WatermarkConfig :=
  { text := text
    font_size := max 8 (min 72 font_size)
    opacity := max (1/10) (min 1 opacity)
    angle := max (-90) (min 90 angle)
    spacing_x := max 50 (min 500 spacing_x)
    spacing_y := max 50 (min 500 spacing_y)
    color := color }

/-- `PDFHeaderFooter` state after `__init__`: the page geometry and the QR
generator built for this page. -/
structure PDFHeaderFooter where
  page_width : ℚ
  page_height : ℚ
  qr_generator : QRCodeGenerator
deriving DecidableEq, Repr

/-- `PDFHeaderFooter.__init__` (pdf_sealer.py lines 115-126): constructs a
`QRCodeGenerator` from the size string with the default border 2; its
`ValueError` propagates. -/
def PDFHeaderFooter.init (page_width page_height : ℚ) (qr_size : String) :
    Except String PDFHeaderFooter :=
  match QRCodeGenerator.init qr_size 2 with
  | .ok g => .ok ⟨page_width, page_height, g⟩
  | .error e => .error e

/-- The fill color `_add_watermark_to_canvas` selects (pdf_sealer.py lines
217-225): parse the configured hex color and set its alpha to the
configured opacity; on parse failure fall back to plain `gray`. -/
def watermarkFillColor (env : GraphicsEnv) (cfg : WatermarkConfig) : FillColor :=
  match env.hexColor cfg.color with
  | some c => { c with alpha := cfg.opacity }
  | none => gray

/-- Python truncation `int(q)` of a real ratio: toward zero. -/
def pyInt (q : ℚ) : Int :=
  if q < 0 then ⌈q⌉ else ⌊q⌋

/-- `num_cols` (pdf_sealer.py line 235): `int(page_width / spacing_x) + 2`. -/
def numCols (page_width spacing_x : ℚ) : Int :=
  pyInt (page_width / spacing_x) + 2

/-- `num_rows` (pdf_sealer.py line 236): `int(page_height / spacing_y) + 2`. -/
def numRows (page_height spacing_y : ℚ) : Int :=
  pyInt (page_height / spacing_y) + 2

/-- The doubly nested tile loop (pdf_sealer.py lines 239-256): for each
`row < rows`, `col < cols`, save state, translate to
`(col * spacing_x, page_height - row * spacing_y)`, rotate by the angle,
draw the text at the local origin, restore state. -/
def tileOps (text : String) (angle : Int) (page_height spacing_x spacing_y : ℚ)
    (rows cols : Nat) : List CanvasOp :=
  (List.range rows).flatMap (fun row =>
    (List.range cols).flatMap (fun col =>
      [CanvasOp.saveState,
       CanvasOp.translate ((col : ℚ) * spacing_x) (page_height - (row : ℚ) * spacing_y),
       CanvasOp.rotate angle,
       CanvasOp.drawString 0 0 text,
       CanvasOp.restoreState]))

/-- `_add_watermark_to_canvas` (pdf_sealer.py lines 206-256) as the list of
canvas operations it issues. -/
def addWatermarkToCanvas (env : GraphicsEnv) (page_width page_height : ℚ)
    (cfg : WatermarkConfig) : List CanvasOp :=
  let text_width := env.stringWidth cfg.text "Helvetica-Bold" (cfg.font_size : ℚ)
  let spacing_x := max cfg.spacing_x (text_width + 50)
  let spacing_y := max cfg.spacing_y ((cfg.font_size : ℚ) + 50)
  let cols := (numCols page_width spacing_x).toNat
  let rows := (numRows page_height spacing_y).toNat
  [CanvasOp.setFont "Helvetica-Bold" (cfg.font_size : ℚ),
   CanvasOp.setFillColor (watermarkFillColor env cfg)] ++
    tileOps cfg.text cfg.angle page_height spacing_x spacing_y rows cols

/-- `_add_qr_code_to_canvas` (pdf_sealer.py lines 157-184): draw the QR
image as a square of side `qr_generator.size` at
`(page_width - size - 20, page_height - size - 20)`. -/
def addQrCodeToCanvas (hf : PDFHeaderFooter) (qr_data : String) : List CanvasOp :=
  let qr_size : ℚ := (hf.qr_generator.size : ℚ)
  let margin : ℚ := 20
  let x_position := hf.page_width - qr_size - margin
  let y_position := hf.page_height - qr_size - margin
  [CanvasOp.drawImage qr_data x_position y_position qr_size qr_size]

/-- `_add_footer_to_canvas` (pdf_sealer.py lines 186-204): Helvetica 10,
black, one `drawString` of the whole message at
`((page_width - text_width) / 2, 20)`. -/
def addFooterToCanvas (env : GraphicsEnv) (hf : PDFHeaderFooter)
    (footer_message : String) : List CanvasOp :=
  let text_width := env.stringWidth footer_message "Helvetica" 10
  let x_position := (hf.page_width - text_width) / 2
  let y_position : ℚ := 20
  [CanvasOp.setFont "Helvetica" 10,
   CanvasOp.setFillColor black,
   CanvasOp.drawString x_position y_position footer_message]

/-- The overlay PDF produced by one `canvas.Canvas(buffer, pagesize=(w,h))`
run: its page size and the operations drawn on it. -/
structure Overlay where
  page_width : ℚ
  page_height : ℚ
  ops : List CanvasOp
deriving DecidableEq, Repr

/-- `create_header_footer_overlay` (pdf_sealer.py lines 128-155): a canvas
of exactly the handler's page size, watermark first (if configured), then
the QR code, then the footer. -/
def createHeaderFooterOverlay (env : GraphicsEnv) (hf : PDFHeaderFooter)
    (qr_data footer_message : String) (watermark_config : Option WatermarkConfig) : Overlay :=
  let wmOps :=
    match watermark_config with
    | some cfg => addWatermarkToCanvas env hf.page_width hf.page_height cfg
    | none => []
  { page_width := hf.page_width
    page_height := hf.page_height
    ops := wmOps ++ addQrCodeToCanvas hf qr_data ++ addFooterToCanvas env hf footer_message }

/-- A PDF page: its mediabox geometry and its content stream, abstracted as
a list of drawing operations. -/
structure PDFPage where
  width : ℚ
  height : ℚ
  content : List CanvasOp
deriving DecidableEq, Repr

/-- Modelled from the spec: PyPDF2's `page.merge_page(overlay_page)` (the
PageMerger capability, §4.3) — a flatten that draws the overlay's graphics
on top of the existing content, leaving the original content stream and the
page's dimensions untouched. -/
def mergePage (page : PDFPage) (overlay : Overlay) : PDFPage :=
  { width := page.width
    height := page.height
    content := page.content ++ overlay.ops }

/-- The per-page loop of `PDFProcessor.process_pdf` (pdf_sealer.py lines
287-311): for each page in order, build a `PDFHeaderFooter` for that page's
own geometry, compose the overlay, merge it onto the page, and append; any
exception aborts the whole run. -/
def processPages (env : GraphicsEnv) (qr_size qr_data footer_message : String)
    (watermark_config : Option WatermarkConfig) :
    List PDFPage → Except String (List PDFPage)
  | [] => .ok []
  | page :: rest =>
    match PDFHeaderFooter.init page.width page.height qr_size with
    | .error e => .error e
    | .ok hf =>
      match processPages env qr_size qr_data footer_message watermark_config rest with
      | .error e => .error e
      | .ok rest' =>
        .ok (mergePage page
          (createHeaderFooterOverlay env hf qr_data footer_message watermark_config) :: rest')

/-- A graphics environment with trivially computable metrics, for concrete
evaluation: every string measures 0 wide and no hex color parses. -/
def dummyEnv : GraphicsEnv :=
  ⟨fun _ _ _ => 0, fun _ => none⟩

namespace Davia

/-- `QRCodeConfig` (pdf_sealer_my_davia.py lines 28-42): a validated size
string and a border. -/
structure QRCodeConfig where
  size : String
  border : Int
deriving DecidableEq, Repr

/-- `QRCodeConfig.validate_size` (pdf_sealer_my_davia.py lines 33-42): a
preset name or an int-parsable string is returned unchanged; anything else
raises a `ValueError`. -/
def validate_size (v : String) : Except String String :=
  if v = "small" ∨ v = "medium" ∨ v = "large" then .ok v
  else
    match pythonInt v with
    | some _ => .ok v
    | none => .error ("Size must be small, medium, large, or a number, got " ++ v)

/-- Construction of a `QRCodeConfig` through pydantic validation: the
`border` field carries `ge=0, le=10` constraints (line 31) — an
out-of-range border is rejected with a validation error, never clamped —
and `size` runs through `validate_size`. -/
def QRCodeConfig.make (size : String) (border : Int) : Except String QRCodeConfig :=
  if border < 0 ∨ 10 < border then
    .error "border must be in the range 0 to 10"
  else
    match validate_size size with
    | .ok s => .ok ⟨s, border⟩
    | .error e => .error e

/-- `QRCodeGenerator.__init__` of the Davia variant (pdf_sealer_my_davia.py
lines 107-122): identical resolution, with the config's border stored. -/
def qrGeneratorInit (config : QRCodeConfig) : Except String QRCodeGenerator :=
  match SIZE_PRESETS config.size with
  | some s => .ok ⟨s, config.border⟩
  | none =>
    match pythonInt config.size with
    | some n => .ok ⟨n, config.border⟩
    | none => .error ("Invalid size: " ++ config.size ++ ". Use small, medium, large, or a number.")

/-- `PDFHeaderFooter.__init__` of the Davia variant (lines 179-190). -/
def headerFooterInit (page_width page_height : ℚ) (qr_config : QRCodeConfig) :
    Except String PDFHeaderFooter :=
  match qrGeneratorInit qr_config with
  | .ok g => .ok ⟨page_width, page_height, g⟩
  | .error e => .error e

/-- `_add_qr_code_to_canvas` of the Davia variant (lines 216-246): line 225
reads `self.qr_generator.qr_config`, but `QRCodeGenerator.__init__` stores
the config as `self.config` (line 114) and never sets a `qr_config`
attribute, so this method unconditionally raises `AttributeError` before
any drawing happens. -/
def addQrCodeToCanvas (hf : PDFHeaderFooter) (qr_data : String) :
    Except String (List CanvasOp) :=
  .error "AttributeError: QRCodeGenerator object has no attribute qr_config"

/-- `create_header_footer_overlay` of the Davia variant (lines 192-214):
no watermark layer — QR code then footer on a canvas of the page's size;
the QR step's `AttributeError` propagates, so composition never actually
returns an overlay. -/
def createHeaderFooterOverlay (env : GraphicsEnv) (hf : PDFHeaderFooter)
    (qr_data footer_message : String) : Except String Overlay :=
  match addQrCodeToCanvas hf qr_data with
  | .error e => .error e
  | .ok qrOps =>
    .ok { page_width := hf.page_width
          page_height := hf.page_height
          ops := qrOps ++ addFooterToCanvas env hf footer_message }

/-- `PDFSealRequest` (pdf_sealer_my_davia.py lines 45-51). -/
structure PDFSealRequest where
  input_path : String
  qr_data : String
  footer_message : String
  qr_config : QRCodeConfig
  output_path : Option String
deriving DecidableEq, Repr

/-- `PDFSealResponse` (pdf_sealer_my_davia.py lines 54-59). -/
structure PDFSealResponse where
  success : Bool
  output_path : String
  message : String
  qr_size_used : String
deriving DecidableEq, Repr

/-- The filesystem and PDF-library capabilities `process_pdf` calls into,
each of which may raise (modelled as `Except.error`). -/
structure DaviaEnv where
  getFileSize : String → Except String Nat
  readPages : String → Except String (List PDFPage)
  writePages : String → List PDFPage → Except String Unit

/-- Index of the last occurrence of `c`, if any. -/
def lastIndexOf (c : Char) : List Char → Option Nat
  | [] => none
  | x :: xs =>
    match lastIndexOf c xs with
    | some i => some (i + 1)
    | none => if x = c then some 0 else none

/-- Modelled from the spec: the root part of Python's
`os.path.splitext(path)` used by `generate_output_path` — the extension is
the suffix starting at the last dot of the basename, where leading dots of
the basename never start an extension. -/
def splitextRoot (p : String) : String :=
  let cs := p.toList
  let slashIdx :=
    match lastIndexOf '/' cs with
    | some i => i + 1
    | none => 0
  let dir := cs.take slashIdx
  let base := cs.drop slashIdx
  let lead := base.takeWhile (fun c => c = '.')
  let rest := base.drop lead.length
  match lastIndexOf '.' rest with
  | some i => String.mk (dir ++ lead ++ rest.take i)
  | none => String.mk cs

/-- `PDFProcessor.generate_output_path` (pdf_sealer_my_davia.py lines
376-387): the input path's root with `_sealed.pdf` appended. -/
def generate_output_path (input_path : String) : String :=
  splitextRoot input_path ++ "_sealed.pdf"

/-- The output path `process_pdf` writes to (line 326): the request's
explicit output path, else the generated one. -/
def resolveOutputPath (request : PDFSealRequest) : String :=
  match request.output_path with
  | some p => p
  | none => generate_output_path request.input_path

/-- The per-page loop of the Davia `process_pdf` (lines 299-323): handler
construction, overlay composition (which in fact always raises, see
`Davia.addQrCodeToCanvas`), merge, then the next page. -/
def daviaProcessPages (env : GraphicsEnv) (qr_config : QRCodeConfig)
    (qr_data footer_message : String) : List PDFPage → Except String (List PDFPage)
  | [] => .ok []
  | page :: rest =>
    match headerFooterInit page.width page.height qr_config with
    | .error e => .error e
    | .ok hf =>
      match createHeaderFooterOverlay env hf qr_data footer_message with
      | .error e => .error e
      | .ok overlay =>
        match daviaProcessPages env qr_config qr_data footer_message rest with
        | .error e => .error e
        | .ok rest' => .ok (mergePage page overlay :: rest')

/-- The body of the `try` block of the Davia `process_pdf` (lines 289-340):
stat the input, read its pages, seal each page, resolve the output path,
write the output, stat it; the first failure aborts the block. -/
def processRun (denv : DaviaEnv) (env : GraphicsEnv) (request : PDFSealRequest) :
    Except String (String × Nat) :=
  match denv.getFileSize request.input_path with
  | .error e => .error e
  | .ok _ =>
    match denv.readPages request.input_path with
    | .error e => .error e
    | .ok pages =>
      match daviaProcessPages env request.qr_config request.qr_data request.footer_message pages with
      | .error e => .error e
      | .ok out =>
        match denv.writePages (resolveOutputPath request) out with
        | .error e => .error e
        | .ok _ =>
          match denv.getFileSize (resolveOutputPath request) with
          | .error e => .error e
          | .ok _ => .ok (resolveOutputPath request, pages.length)

/-- `PDFProcessor.process_pdf` of the Davia variant (lines 276-348): the
whole body sits in a `try/except Exception` — success yields a response
with `success=True` and the written output path, any exception yields
`success=False` with an empty output path; nothing propagates. -/
def process_pdf (denv : DaviaEnv) (env : GraphicsEnv) (request : PDFSealRequest) :
    PDFSealResponse :=
  match processRun denv env request with
  | .ok (p, n) =>
    { success := true
      output_path := p
      message := "Successfully processed PDF with " ++ toString n ++ " pages"
      qr_size_used := request.qr_config.size }
  | .error e =>
    { success := false
      output_path := ""
      message := "Error processing PDF: " ++ e
      qr_size_used := request.qr_config.size }

end Davia

/-- Spec-side formula (§4.2): effective X tile spacing is the configured
spacing or the rendered text width (measured at Helvetica-Bold at the
configured size) plus 50, whichever is larger. -/
def specEffectiveSpacingX (env : GraphicsEnv) (cfg : WatermarkConfig) : ℚ :=
  max cfg.spacing_x (env.stringWidth cfg.text "Helvetica-Bold" (cfg.font_size : ℚ) + 50)

/-- Spec-side formula (§4.2): effective Y tile spacing is the configured
spacing or the font size plus 50, whichever is larger. -/
def specEffectiveSpacingY (cfg : WatermarkConfig) : ℚ :=
  max cfg.spacing_y ((cfg.font_size : ℚ) + 50)

/-- Claim C1: for every page geometry `(w, h)` with `w > 0` and `h > 0`,
the overlay produced by `create_header_footer_overlay` has dimensions
exactly `(w, h)`, whatever the QR data, footer message, or watermark
configuration. -/
theorem overlay_dimensions_exact (env : GraphicsEnv) (hf : PDFHeaderFooter)
    (qr_data footer_message : String) (watermark_config : Option WatermarkConfig)
    (hw : 0 < hf.page_width) (hh : 0 < hf.page_height) :
    (createHeaderFooterOverlay env hf qr_data footer_message watermark_config).page_width =
      hf.page_width ∧
    (createHeaderFooterOverlay env hf qr_data footer_message watermark_config).page_height =
      hf.page_height :=
  ⟨rfl, rfl⟩

/-- Witness for C1 at a concrete 612×792 page. -/
theorem overlay_dimensions_exact_witness :
    (createHeaderFooterOverlay dummyEnv ⟨612, 792, ⟨50, 2⟩⟩ "d" "f" none).page_width = 612 ∧
    (createHeaderFooterOverlay dummyEnv ⟨612, 792, ⟨50, 2⟩⟩ "d" "f" none).page_height = 792 :=
  overlay_dimensions_exact dummyEnv ⟨612, 792, ⟨50, 2⟩⟩ "d" "f" none
    (by norm_num) (by norm_num)

/-- Claim C3: `WatermarkConfig` construction is total (it is a plain Lean
function), every numeric field lands in its clamp range, and in particular
`font_size=200` clamps to 72, `opacity=0` to 0.1, and `angle=120` to 90. -/
theorem watermark_config_clamps :
    (∀ (text : String) (fs : Int) (op : ℚ) (ang : Int) (sx sy : ℚ) (c : String),
      (8 ≤ (WatermarkConfig.init text fs op ang sx sy c).font_size ∧
        (WatermarkConfig.init text fs op ang sx sy c).font_size ≤ 72) ∧
      (1/10 ≤ (WatermarkConfig.init text fs op ang sx sy c).opacity ∧
        (WatermarkConfig.init text fs op ang sx sy c).opacity ≤ 1) ∧
      (-90 ≤ (WatermarkConfig.init text fs op ang sx sy c).angle ∧
        (WatermarkConfig.init text fs op ang sx sy c).angle ≤ 90) ∧
      (50 ≤ (WatermarkConfig.init text fs op ang sx sy c).spacing_x ∧
        (WatermarkConfig.init text fs op ang sx sy c).spacing_x ≤ 500) ∧
      (50 ≤ (WatermarkConfig.init text fs op ang sx sy c).spacing_y ∧
        (WatermarkConfig.init text fs op ang sx sy c).spacing_y ≤ 500)) ∧
    (WatermarkConfig.init "t" 200 (2/5) 45 200 150 "#CCCCCC").font_size = 72 ∧
    (WatermarkConfig.init "t" 24 0 45 200 150 "#CCCCCC").opacity = 1/10 ∧
    (WatermarkConfig.init "t" 24 (2/5) 120 200 150 "#CCCCCC").angle = 90 := by
  refine ⟨fun text fs op ang sx sy c => ?_, by norm_num [WatermarkConfig.init],
    by norm_num [WatermarkConfig.init], by norm_num [WatermarkConfig.init]⟩
  simp only [WatermarkConfig.init]
  refine ⟨⟨le_max_left _ _, max_le (by norm_num) (min_le_left _ _)⟩,
    ⟨le_max_left _ _, max_le (by norm_num) (min_le_left _ _)⟩,
    ⟨le_max_left _ _, max_le (by norm_num) (min_le_left _ _)⟩,
    ⟨le_max_left _ _, max_le (by norm_num) (min_le_left _ _)⟩,
    ⟨le_max_left _ _, max_le (by norm_num) (min_le_left _ _)⟩⟩

/-- Claim C4: the watermark pass draws with Helvetica-Bold at the
configured size and tiles with effective spacings
`max(spacing_x, text_width + 50)` and `max(spacing_y, font_size + 50)`,
the text width measured at the same Helvetica-Bold font and size. -/
theorem watermark_effective_spacing (env : GraphicsEnv) (page_width page_height : ℚ)
    (cfg : WatermarkConfig) :
    addWatermarkToCanvas env page_width page_height cfg =
      [CanvasOp.setFont "Helvetica-Bold" (cfg.font_size : ℚ),
       CanvasOp.setFillColor (watermarkFillColor env cfg)] ++
        tileOps cfg.text cfg.angle page_height
          (specEffectiveSpacingX env cfg) (specEffectiveSpacingY cfg)
          (numRows page_height (specEffectiveSpacingY cfg)).toNat
          (numCols page_width (specEffectiveSpacingX env cfg)).toNat :=
  rfl

/-- Claim C6: on every composed overlay the QR image is a square of side
`qr_generator.size` with lower-left corner at
`(page_width - size - 20, page_height - size - 20)`, and the footer is a
single un-truncated `drawString` of the whole message in Helvetica 10 at
`((page_width - text_width) / 2, 20)`. -/
theorem qr_and_footer_placement (env : GraphicsEnv) (hf : PDFHeaderFooter)
    (qr_data footer_message : String) (watermark_config : Option WatermarkConfig) :
    (createHeaderFooterOverlay env hf qr_data footer_message watermark_config).ops =
      (match watermark_config with
        | some cfg => addWatermarkToCanvas env hf.page_width hf.page_height cfg
        | none => []) ++
      [CanvasOp.drawImage qr_data
        (hf.page_width - (hf.qr_generator.size : ℚ) - 20)
        (hf.page_height - (hf.qr_generator.size : ℚ) - 20)
        (hf.qr_generator.size : ℚ) (hf.qr_generator.size : ℚ)] ++
      [CanvasOp.setFont "Helvetica" 10,
       CanvasOp.setFillColor black,
       CanvasOp.drawString
         ((hf.page_width - env.stringWidth footer_message "Helvetica" 10) / 2)
         20 footer_message] :=
  rfl

/-- Claim C5: for positive page dimensions and effective spacings, the grid
has exactly `floor(w/sx) + 2` columns and `floor(h/sy) + 2` rows, and these
counts dominate `ceil(w/sx) + 1` and `ceil(h/sy) + 1`. -/
theorem watermark_grid_counts (w h sx sy : ℚ) (hw : 0 < w) (hh : 0 < h)
    (hsx : 0 < sx) (hsy : 0 < sy) :
    numCols w sx = ⌊w / sx⌋ + 2 ∧ numRows h sy = ⌊h / sy⌋ + 2 ∧
    ⌈w / sx⌉ + 1 ≤ numCols w sx ∧ ⌈h / sy⌉ + 1 ≤ numRows h sy := by
  have hx : ¬ (w / sx < 0) := not_lt.mpr (le_of_lt (div_pos hw hsx))
  have hy : ¬ (h / sy < 0) := not_lt.mpr (le_of_lt (div_pos hh hsy))
  have e1 : numCols w sx = ⌊w / sx⌋ + 2 := by simp [numCols, pyInt, hx]
  have e2 : numRows h sy = ⌊h / sy⌋ + 2 := by simp [numRows, pyInt, hy]
  refine ⟨e1, e2, ?_, ?_⟩
  · rw [e1]
    have := Int.ceil_le_floor_add_one (w / sx)
    omega
  · rw [e2]
    have := Int.ceil_le_floor_add_one (h / sy)
    omega

/-- Witness for C5 on a US-letter page with the default spacings. -/
theorem watermark_grid_counts_witness :
    numCols 612 200 = ⌊(612 : ℚ) / 200⌋ + 2 ∧ numRows 792 150 = ⌊(792 : ℚ) / 150⌋ + 2 ∧
    ⌈(612 : ℚ) / 200⌉ + 1 ≤ numCols 612 200 ∧ ⌈(792 : ℚ) / 150⌉ + 1 ≤ numRows 792 150 :=
  watermark_grid_counts 612 792 200 150 (by norm_num) (by norm_num) (by norm_num) (by norm_num)

/-- Claim C7: size-class strings resolve to 30/50/80 points, a numeric
string resolves to its integer value, and a string that is neither a class
nor numeric makes both variants' size resolution fail with an error. -/
theorem qr_size_resolution (border : Int) :
    QRCodeGenerator.init "small" border = .ok ⟨30, border⟩ ∧
    QRCodeGenerator.init "medium" border = .ok ⟨50, border⟩ ∧
    QRCodeGenerator.init "large" border = .ok ⟨80, border⟩ ∧
    QRCodeGenerator.init "65" border = .ok ⟨65, border⟩ ∧
    Davia.validate_size "65" = .ok "65" ∧
    ∀ s, SIZE_PRESETS s = none → pythonInt s = none →
      (∃ msg, QRCodeGenerator.init s border = .error msg) ∧
      ∃ msg, Davia.validate_size s = .error msg := by
  refine ⟨rfl, rfl, rfl, rfl, rfl, fun s hp hi => ?_⟩
  have hs1 : s ≠ "small" := fun hc => by subst hc; simp [SIZE_PRESETS] at hp
  have hs2 : s ≠ "medium" := fun hc => by subst hc; simp [SIZE_PRESETS] at hp
  have hs3 : s ≠ "large" := fun hc => by subst hc; simp [SIZE_PRESETS] at hp
  constructor
  · exact ⟨"Invalid size: " ++ s ++ ". Use small, medium, large, or a number.",
      by simp [QRCodeGenerator.init, hp, hi]⟩
  · exact ⟨"Size must be small, medium, large, or a number, got " ++ s,
      by simp [Davia.validate_size, hs1, hs2, hs3, hi]⟩

/-- Witness for C7 at border 2 and the non-numeric, non-class string
`"bogus"`. -/
theorem qr_size_resolution_witness :
    QRCodeGenerator.init "small" 2 = .ok ⟨30, 2⟩ ∧
    (∃ msg, QRCodeGenerator.init "bogus" 2 = .error msg) :=
  ⟨(qr_size_resolution 2).1, ((qr_size_resolution 2).2.2.2.2.2 "bogus" rfl rfl).1⟩

/-- Claim C8 counterexample: in pdf_sealer.py the border is never clamped —
a generator constructed with border 15 stores 15 and passes exactly 15 to
the qrcode library, outside `[0, 10]`. -/
theorem qr_border_not_clamped :
    QRCodeGenerator.init "small" 15 = .ok ⟨30, 15⟩ ∧
    (QRCodeGenerator.generate_qr_code ⟨30, 15⟩ "d").border = 15 ∧
    ¬ ((15 : Int) ≤ 10) :=
  ⟨rfl, rfl, by norm_num⟩

/-- Claim C8 as amended: pdf_sealer.py stores and uses the border as given,
with no clamping; in the Davia variant an out-of-range border is rejected
at `QRCodeConfig` construction by pydantic's `ge=0, le=10` bounds rather
than clamped, so every successfully constructed config has its border in
`[0, 10]`. -/
theorem qr_border_validated_range (size : String) (border : Int)
    (cfg : Davia.QRCodeConfig) (h : Davia.QRCodeConfig.make size border = .ok cfg) :
    0 ≤ cfg.border ∧ cfg.border ≤ 10 := by
  unfold Davia.QRCodeConfig.make at h
  split at h
  · exact absurd h (by simp)
  · rename_i hb
    push_neg at hb
    split at h
    · cases h
      exact ⟨hb.1, hb.2⟩
    · exact absurd h (by simp)

/-- Witness for the amended C8 at size "small", border 2. -/
theorem qr_border_validated_range_witness :
    0 ≤ (⟨"small", 2⟩ : Davia.QRCodeConfig).border ∧
      (⟨"small", 2⟩ : Davia.QRCodeConfig).border ≤ 10 :=
  qr_border_validated_range "small" 2 ⟨"small", 2⟩ rfl

/-- Claim C9: when the configured hex color fails to parse, overlay
composition still succeeds (it is a total function) with the fixed gray
fill — whose alpha is the constant 1, so the configured opacity is dropped —
and the overlay's second operation is `setFillColor gray`. -/
theorem invalid_color_falls_back_to_gray (env : GraphicsEnv) (hf : PDFHeaderFooter)
    (qr_data footer_message : String) (cfg : WatermarkConfig)
    (h : env.hexColor cfg.color = none) :
    watermarkFillColor env cfg = gray ∧
    (watermarkFillColor env cfg).alpha = 1 ∧
    (createHeaderFooterOverlay env hf qr_data footer_message (some cfg)).ops.get? 1 =
      some (CanvasOp.setFillColor gray) := by
  have hfc : watermarkFillColor env cfg = gray := by
    simp [watermarkFillColor, h]
  refine ⟨hfc, by rw [hfc]; rfl, ?_⟩
  simp [createHeaderFooterOverlay, addWatermarkToCanvas, hfc, List.get?]

/-- Witness for C9: the dummy environment parses no color at all. -/
theorem invalid_color_falls_back_to_gray_witness :
    watermarkFillColor dummyEnv (WatermarkConfig.init "DRAFT" 24 (2/5) 45 200 150 "oops") =
      gray ∧
    (watermarkFillColor dummyEnv (WatermarkConfig.init "DRAFT" 24 (2/5) 45 200 150 "oops")).alpha =
      1 ∧
    (createHeaderFooterOverlay dummyEnv ⟨612, 792, ⟨50, 2⟩⟩ "d" "f"
        (some (WatermarkConfig.init "DRAFT" 24 (2/5) 45 200 150 "oops"))).ops.get? 1 =
      some (CanvasOp.setFillColor gray) :=
  invalid_color_falls_back_to_gray dummyEnv ⟨612, 792, ⟨50, 2⟩⟩ "d" "f"
    (WatermarkConfig.init "DRAFT" 24 (2/5) 45 200 150 "oops") rfl

/-- Claim C2: when the processing loop succeeds, the output has the same
page count as the input, in the same order, each output page keeps its
source page's width and height, and each source page's content stream is an
unaltered initial segment of the merged page's content (the overlay is only
drawn after it). -/
theorem process_pdf_preserves_pages (env : GraphicsEnv)
    (qr_size qr_data footer_message : String) (wm : Option WatermarkConfig)
    (pages out : List PDFPage)
    (h : processPages env qr_size qr_data footer_message wm pages = .ok out) :
    out.length = pages.length ∧
    ∀ i (hi : i < out.length) (hj : i < pages.length),
      (out.get ⟨i, hi⟩).width = (pages.get ⟨i, hj⟩).width ∧
      (out.get ⟨i, hi⟩).height = (pages.get ⟨i, hj⟩).height ∧
      ∃ extra, (out.get ⟨i, hi⟩).content = (pages.get ⟨i, hj⟩).content ++ extra := by
  induction pages generalizing out with
  | nil =>
    simp only [processPages, Except.ok.injEq] at h
    subst h
    exact ⟨rfl, fun i hi hj => absurd hi (by simp)⟩
  | cons p rest ih =>
    simp only [processPages] at h
    cases hinit : PDFHeaderFooter.init p.width p.height qr_size with
    | error e =>
      rw [hinit] at h
      exact absurd h (by simp)
    | ok hf =>
      rw [hinit] at h
      cases hrest : processPages env qr_size qr_data footer_message wm rest with
      | error e =>
        rw [hrest] at h
        exact absurd h (by simp)
      | ok rest' =>
        rw [hrest] at h
        simp only [Except.ok.injEq] at h
        subst h
        obtain ⟨hlen, hidx⟩ := ih rest' hrest
        refine ⟨by simp [hlen], ?_⟩
        intro i hi hj
        match i with
        | 0 =>
          exact ⟨rfl, rfl,
            (createHeaderFooterOverlay env hf qr_data footer_message wm).ops, rfl⟩
        | Nat.succ i =>
          have hi' : i < rest'.length := by simpa using hi
          have hj' : i < rest.length := by simpa using hj
          simpa using hidx i hi' hj'

/-- Witness for C2 on a one-page 612×792 document. -/
theorem process_pdf_preserves_pages_witness :
    ∃ out, processPages dummyEnv "medium" "d" "f" none [⟨612, 792, []⟩] = Except.ok out ∧
      out.length = [(⟨612, 792, []⟩ : PDFPage)].length := by
  refine ⟨[mergePage ⟨612, 792, []⟩
    (createHeaderFooterOverlay dummyEnv ⟨612, 792, ⟨50, 2⟩⟩ "d" "f" none)], ?_, ?_⟩
  · rfl
  · exact (process_pdf_preserves_pages dummyEnv "medium" "d" "f" none [⟨612, 792, []⟩]
      [mergePage ⟨612, 792, []⟩
        (createHeaderFooterOverlay dummyEnv ⟨612, 792, ⟨50, 2⟩⟩ "d" "f" none)]
      (by rfl)).1

/-- The `ok` value of the Davia `try`-block always carries the resolved
output path. -/
theorem processRun_ok_path (denv : Davia.DaviaEnv) (env : GraphicsEnv)
    (request : Davia.PDFSealRequest) (p : String) (n : Nat)
    (h : Davia.processRun denv env request = .ok (p, n)) :
    p = Davia.resolveOutputPath request := by
  unfold Davia.processRun at h
  split at h
  · exact absurd h (by simp)
  · split at h
    · exact absurd h (by simp)
    · split at h
      · exact absurd h (by simp)
      · split at h
        · exact absurd h (by simp)
        · split at h
          · exact absurd h (by simp)
          · cases h
            rfl

/-- Sealing any non-empty page list in the Davia variant fails: either the
handler's size resolution raises, or — whenever a handler is built — the
unconditional `AttributeError` of `Davia.addQrCodeToCanvas` does. -/
theorem daviaProcessPages_cons_error (env : GraphicsEnv) (qr_config : Davia.QRCodeConfig)
    (qr_data footer_message : String) (page : PDFPage) (rest : List PDFPage) :
    ∃ e, Davia.daviaProcessPages env qr_config qr_data footer_message (page :: rest) =
      .error e := by
  simp only [Davia.daviaProcessPages]
  cases h : Davia.headerFooterInit page.width page.height qr_config with
  | error e => exact ⟨e, rfl⟩
  | ok hf =>
    exact ⟨"AttributeError: QRCodeGenerator object has no attribute qr_config", rfl⟩

/-- Claim C10: the Davia `process_pdf` is a total function of its inputs —
every failure of any step (stat, read, per-page sealing, write) is caught
and returned as a response with `success = false` and an empty output path,
while success returns `success = true` with the path actually written.
Because `_add_qr_code_to_canvas` unconditionally raises `AttributeError`
(it reads the non-existent `qr_generator.qr_config`), the success branch is
in fact reachable only for a zero-page document: whenever the input reads
as a non-empty page list, the response is the caught-failure one. -/
theorem davia_process_pdf_no_raise (denv : Davia.DaviaEnv) (env : GraphicsEnv)
    (request : Davia.PDFSealRequest) :
    (((Davia.process_pdf denv env request).success = true ∧
      (Davia.process_pdf denv env request).output_path = Davia.resolveOutputPath request) ∨
     ((Davia.process_pdf denv env request).success = false ∧
      (Davia.process_pdf denv env request).output_path = "")) ∧
    ∀ page rest, denv.readPages request.input_path = .ok (page :: rest) →
      (Davia.process_pdf denv env request).success = false ∧
      (Davia.process_pdf denv env request).output_path = "" := by
  constructor
  · cases hrun : Davia.processRun denv env request with
    | ok pn =>
      obtain ⟨p, n⟩ := pn
      left
      have hp := processRun_ok_path denv env request p n hrun
      constructor
      · simp [Davia.process_pdf, hrun]
      · simp [Davia.process_pdf, hrun, hp]
    | error e =>
      right
      constructor <;> simp [Davia.process_pdf, hrun]
  · intro page rest hread
    obtain ⟨e, he⟩ := daviaProcessPages_cons_error env request.qr_config request.qr_data
      request.footer_message page rest
    have hrun : ∃ e2, Davia.processRun denv env request = .error e2 := by
      unfold Davia.processRun
      cases hg : denv.getFileSize request.input_path with
      | error e2 => exact ⟨e2, rfl⟩
      | ok _ =>
        refine ⟨e, ?_⟩
        rw [hread]
        simp only [he]
    obtain ⟨e2, hrun⟩ := hrun
    constructor <;> simp [Davia.process_pdf, hrun]

/-- A concrete filesystem environment for the C10 witness: stat succeeds,
the input reads as one 612×792 page, writes succeed. -/
def testDaviaEnv : Davia.DaviaEnv :=
  { getFileSize := fun _ => .ok 1000
    readPages := fun _ => .ok [⟨612, 792, []⟩]
    writePages := fun _ _ => .ok () }

/-- Witness for C10: a readable one-page document still yields the caught
failure response with an empty output path. -/
theorem davia_process_pdf_no_raise_witness :
    (Davia.process_pdf testDaviaEnv dummyEnv
        ⟨"doc.pdf", "d", "f", ⟨"medium", 2⟩, none⟩).success = false ∧
    (Davia.process_pdf testDaviaEnv dummyEnv
        ⟨"doc.pdf", "d", "f", ⟨"medium", 2⟩, none⟩).output_path = "" :=
  (davia_process_pdf_no_raise testDaviaEnv dummyEnv
      ⟨"doc.pdf", "d", "f", ⟨"medium", 2⟩, none⟩).2 ⟨612, 792, []⟩ [] rfl

end PDFSealer
